import Mathlib

/-!
Verification development for the `astrbot_plugin_boss_notifier` repository
(`src/main.py`). The plugin keeps a single JSON document
`{"subscriptions": [...], "boss": {...}}` in memory (`BossData.data`),
persists it with `BossData.save_data`, and mutates it with
`add_subscription`, `remove_subscription` and `update_boss`;
`format_boss_md` renders the record. We embed the data model and the
operations below and settle the frozen claims about them.

Modelling conventions:
* Python `str` is Lean `String`; the subscription list (`data["subscriptions"]`)
  is a `List String`, the boss dict (`data["boss"]`) is an association list
  `List (String × String)` in insertion order (Python dicts preserve
  insertion order; `update_boss` always writes the keys in the fixed order
  `place, name, iv, nature, feature, time`).
* The on-disk file is an `Option String` (`none` = absent). A write that
  fails is injected by a `failAfter : Option Nat` parameter: the exception is
  raised after `k` characters of the serialized document have been written.
  This mirrors `open(path, "w")` (truncate in place) followed by a sequential
  `json.dump`; `save_data` catches the exception and logs, as the source does.
* `datetime.now()` is an explicit `PyDateTime` argument; `strftime` with the
  format `"%Y/%m/%d-%H:%M"` is modelled digit by digit.
-/

/-- A JSON value, for the load path (`json.load` yields a raw value that is
assigned to `self.data` without validation). -/
inductive Json where
  | null : Json
  | bool : Bool → Json
  | num : Int → Json
  | str : String → Json
  | arr : List Json → Json
  | obj : List (String × Json) → Json

/-- The in-memory document `self.data`: `data["subscriptions"]` and
`data["boss"]`. -/
structure BossDoc where
  subscriptions : List String
  boss : List (String × String)
deriving DecidableEq

/-- Python `b.get(k, '')` on the boss dict. -/
def bossGet (b : List (String × String)) (k : String) : String :=
  match b.find? (fun kv => kv.1 == k) with
  | some kv => kv.2
  | none => ""

/-- The document as a JSON value, as `json.dump` serializes `self.data`. -/
def dumpDocJson (d : BossDoc) : Json :=
  .obj [("subscriptions", .arr (d.subscriptions.map Json.str)),
        ("boss", .obj (d.boss.map (fun kv => (kv.1, Json.str kv.2))))]

/-- Key lookup in a JSON object (Python dict access). -/
def jLookup : List (String × Json) → String → Option Json
  | [], _ => none
  | (k, v) :: rest, key => if k = key then some v else jLookup rest key

/-- Read a JSON array back as a list of strings. -/
def asStrList : List Json → Option (List String)
  | [] => some []
  | .str s :: rest => (asStrList rest).map (s :: ·)
  | _ => none

/-- Read a JSON object back as a string-to-string association list. -/
def asStrPairs : List (String × Json) → Option (List (String × String))
  | [] => some []
  | (k, .str v) :: rest => (asStrPairs rest).map ((k, v) :: ·)
  | _ => none

/-- Recover the document abstraction from a loaded JSON value. -/
def parseDocJson : Json → Option BossDoc
  | .obj kvs =>
    match jLookup kvs "subscriptions", jLookup kvs "boss" with
    | some (.arr l), some (.obj b) =>
      match asStrList l, asStrPairs b with
      | some subs, some boss => some ⟨subs, boss⟩
      | _, _ => none
    | _, _ => none
  | _ => none

/-- JSON string escaping as CPython's `json.dump` with `ensure_ascii=False`
performs it: backslash, quote, the short control escapes, `\u00XX` for the
remaining control characters, and every other character verbatim. -/
def escapeJsonChar (c : Char) : String :=
  if c = '"' then "\\\""
  else if c = '\\' then "\\\\"
  else if c = '\n' then "\\n"
  else if c = '\r' then "\\r"
  else if c = '\t' then "\\t"
  else if c = Char.ofNat 8 then "\\b"
  else if c = Char.ofNat 12 then "\\f"
  else if c.toNat < 32 then
    "\\u00" ++ String.mk [Nat.digitChar (c.toNat / 16), Nat.digitChar (c.toNat % 16)]
  else String.mk [c]

def escapeJson (s : String) : String :=
  String.join (s.data.map escapeJsonChar)

/-- A JSON string literal `"..."`. -/
def jsonStrLit (s : String) : String :=
  "\"" ++ escapeJson s ++ "\""

/-- `json.dump(..., indent=2)` rendering of the subscriptions array, which
sits at nesting depth 1 inside the document. -/
def dumpSubsArr : List String → String
  | [] => "[]"
  | xs => "[\n" ++ String.intercalate ",\n" (xs.map (fun x => "    " ++ jsonStrLit x))
          ++ "\n  ]"

/-- `json.dump(..., indent=2)` rendering of the boss object at depth 1. -/
def dumpBossObj : List (String × String) → String
  | [] => "\x7b\x7d"
  | kvs => "\x7b\n"
           ++ String.intercalate ",\n"
                (kvs.map (fun kv => "    " ++ jsonStrLit kv.1 ++ ": " ++ jsonStrLit kv.2))
           ++ "\n  \x7d"

/-- The exact text `json.dump(self.data, f, ensure_ascii=False, indent=2)`
writes for a document. -/
def dumpString (d : BossDoc) : String :=
  "\x7b\n  \"subscriptions\": " ++ dumpSubsArr d.subscriptions
  ++ ",\n  \"boss\": " ++ dumpBossObj d.boss ++ "\n\x7d"

/-- The store state: in-memory document, on-disk file content (`none` when the
file does not exist) and the log emitted through `logger`. -/
structure StoreState where
  doc : BossDoc
  file : Option String
  log : List String
deriving DecidableEq

/-- The raw file write inside `save_data`: `open(path, "w")` truncates the
file in place, then the serialized text is written sequentially. When the
injected fault `failAfter = some k` fires, the write raises after `k`
characters have reached the disk (the `Bool` is the raised-exception flag). -/
def writeFileRaw (content : String) (failAfter : Option Nat) : Option String × Bool :=
  match failAfter with
  | none => (some content, false)
  | some k => (some (String.mk (content.data.take k)), true)

/-- `BossData.save_data`: takes the lock, overwrites the file with the JSON
serialization of `self.data`, and catches any exception, logging
`"保存数据失败"` instead of re-raising. It never throws to its caller. -/
def save_data (s : StoreState) (failAfter : Option Nat) : StoreState :=
  match writeFileRaw (dumpString s.doc) failAfter with
  | (f, true) => { s with file := f, log := s.log ++ ["保存数据失败"] }
  | (f, false) => { s with file := f }

/-- `BossData.add_subscription`: append the id if not already present, then
persist. The returned `Bool` is the raised-exception flag, always `false`
because `save_data` swallows failures. -/
def add_subscription (s : StoreState) (uid : String) (failAfter : Option Nat) :
    StoreState × Bool :=
  if uid ∈ s.doc.subscriptions then (s, false)
  else
    (save_data { s with doc := { s.doc with
        subscriptions := s.doc.subscriptions ++ [uid] } } failAfter,
     false)

/-- `BossData.remove_subscription`: `list.remove` drops the first occurrence,
guarded by a membership test; then persist. -/
def remove_subscription (s : StoreState) (uid : String) (failAfter : Option Nat) :
    StoreState × Bool :=
  if uid ∈ s.doc.subscriptions then
    (save_data { s with doc := { s.doc with
        subscriptions := s.doc.subscriptions.erase uid } } failAfter,
     false)
  else (s, false)

/-- The wall clock as `datetime.now()` sees it. -/
structure PyDateTime where
  year : Nat
  month : Nat
  day : Nat
  hour : Nat
  minute : Nat
deriving DecidableEq

/-- Two zero-padded decimal digits (`%m`, `%d`, `%H`, `%M`). -/
def pad2chars (n : Nat) : List Char :=
  [Nat.digitChar (n / 10 % 10), Nat.digitChar (n % 10)]

/-- Four zero-padded decimal digits (`%Y`; `datetime` years lie in 1..9999). -/
def pad4chars (n : Nat) : List Char :=
  [Nat.digitChar (n / 1000 % 10), Nat.digitChar (n / 100 % 10),
   Nat.digitChar (n / 10 % 10), Nat.digitChar (n % 10)]

/-- `datetime.now().strftime("%Y/%m/%d-%H:%M")`. -/
def strftimeBoss (t : PyDateTime) : String :=
  String.mk (pad4chars t.year ++ ['/'] ++ pad2chars t.month ++ ['/'] ++ pad2chars t.day
             ++ ['-'] ++ pad2chars t.hour ++ [':'] ++ pad2chars t.minute)

/-- Checker for the `YYYY/MM/DD-HH:MM` shape: sixteen characters, digits in
the date and time slots, the separators `/`, `/`, `-`, `:` in between. -/
def timePatternChars : List Char → Bool
  | [y1, y2, y3, y4, s1, m1, m2, s2, d1, d2, s3, h1, h2, s4, n1, n2] =>
    y1.isDigit && y2.isDigit && y3.isDigit && y4.isDigit && (s1 == '/')
    && m1.isDigit && m2.isDigit && (s2 == '/') && d1.isDigit && d2.isDigit
    && (s3 == '-') && h1.isDigit && h2.isDigit && (s4 == ':')
    && n1.isDigit && n2.isDigit
  | _ => false

def matchesTimePattern (s : String) : Bool :=
  timePatternChars s.data

/-- The time value `update_boss` stores: Python's `if not time_str` treats
both `None` and the empty string as "not supplied" and stamps the current
time. -/
def timeOf (ts : Option String) (now : PyDateTime) : String :=
  match ts with
  | none => strftimeBoss now
  | some t => if t = "" then strftimeBoss now else t

/-- `BossData.update_boss`: replaces `data["boss"]` wholesale with a dict of
the six keys in the source's order, then persists. -/
def update_boss (s : StoreState) (place name iv nature feature : String)
    (time_str : Option String) (now : PyDateTime) (failAfter : Option Nat) :
    StoreState × Bool :=
  (save_data { s with doc := { s.doc with
      boss := [("place", place), ("name", name), ("iv", iv), ("nature", nature),
               ("feature", feature), ("time", timeOf time_str now)] } } failAfter,
   false)

/-- The membership view the `订阅列表` command reads:
`boss_data.data["subscriptions"]` in its stored (insertion) order. -/
def list_subscribers (s : StoreState) : List String :=
  s.doc.subscriptions

/-- `BossData.format_boss_md`: the fixed notification template. -/
def format_boss_md (d : BossDoc) : String :=
  if d.boss = [] then "当前没有记录头目信息。"
  else "头目刷新提醒\n"
    ++ "- 时间：" ++ bossGet d.boss "time" ++ "\n"
    ++ "- 地点：" ++ bossGet d.boss "place" ++ "\n"
    ++ "- 精灵：" ++ bossGet d.boss "name" ++ "\n"
    ++ "- 个体：" ++ bossGet d.boss "iv" ++ "\n"
    ++ "- 性格：" ++ bossGet d.boss "nature" ++ "\n"
    ++ "- 特性：" ++ bossGet d.boss "feature" ++ "\n"

/-- A labeled line of the notification template. -/
def specLine (label value : String) : String :=
  "- " ++ label ++ "：" ++ value ++ "\n"

/-- Modelled from the spec's words, to be compared with `format_boss_md`:
"a fixed-template multi-line block ... or a fixed `no record` sentence if
absent; title line, then time, place, name, individual-values, nature,
feature, each as a labeled line; missing sub-fields render as empty string,
never omitted." -/
def renderNotificationSpec (d : BossDoc) : String :=
  if d.boss = [] then "当前没有记录头目信息。"
  else "头目刷新提醒\n"
    ++ specLine "时间" (bossGet d.boss "time")
    ++ specLine "地点" (bossGet d.boss "place")
    ++ specLine "精灵" (bossGet d.boss "name")
    ++ specLine "个体" (bossGet d.boss "iv")
    ++ specLine "性格" (bossGet d.boss "nature")
    ++ specLine "特性" (bossGet d.boss "feature")

/-- What `load_data` finds at the file path on construction. -/
inductive FileRead where
  | absent : FileRead
  | unreadableOrInvalid : FileRead
  | valid : Json → FileRead

/-- The constructor-initialized document `{"subscriptions": [], "boss": {}}`. -/
def emptyDocJson : Json :=
  .obj [("subscriptions", .arr []), ("boss", .obj [])]

/-- `BossData.load_data`: if the file is absent the constructor's initial
value is kept; if reading or parsing raises, the handler resets `self.data`
to the same empty document; a valid JSON value is assigned raw. -/
def load_data : FileRead → Json
  | .absent => emptyDocJson
  | .unreadableOrInvalid => emptyDocJson
  | .valid j => j

/-- `BossData.__init__` seen from the caller: the resulting `self.data` and
the raised-exception flag (always `false`: the only fallible part is wrapped
in try/except). -/
def bossDataInit (fr : FileRead) : Json × Bool :=
  (load_data fr, false)

/-!
Interleaving model for the concurrency claim. Two host tasks run
`add_subscription` on distinct ids. The atomic actions, at the granularity
of the source lines, are: the membership check (line 42), the list append
(line 43), acquiring `BossData.LOCK` (line 34), writing the file (lines
35-36), releasing the lock. Program counters: 0 = check, 1 = append,
2 = acquire, 3 = write, 4 = release, 5 = done. A task whose acquire is
blocked, or that is done, leaves the state unchanged when scheduled.
-/

/-- A configuration of the two-task interleaving model. `file` is the
subscriptions array of the last completed file write. -/
structure CConfig where
  subs : List String
  lockHeld : Option Bool
  file : List String
  pc0 : Nat
  pc1 : Nat
deriving DecidableEq

/-- The two distinct subscriber ids used by the two tasks. -/
def uidOf (i : Bool) : String :=
  if i then "1002" else "1001"

def pcOf (c : CConfig) (i : Bool) : Nat :=
  if i then c.pc1 else c.pc0

def setPc (c : CConfig) (i : Bool) (p : Nat) : CConfig :=
  if i then { c with pc1 := p } else { c with pc0 := p }

/-- One atomic action of task `i`. -/
def cstep (c : CConfig) (i : Bool) : CConfig :=
  match pcOf c i with
  | 0 => if uidOf i ∈ c.subs then setPc c i 5 else setPc c i 1
  | 1 => setPc { c with subs := c.subs ++ [uidOf i] } i 2
  | 2 => match c.lockHeld with
         | none => setPc { c with lockHeld := some i } i 3
         | some _ => c
  | 3 => setPc { c with file := c.subs } i 4
  | 4 => setPc { c with lockHeld := none } i 5
  | _ => c

/-- Run a schedule (the sequence of task choices). -/
def crun (c : CConfig) (sched : List Bool) : CConfig :=
  sched.foldl cstep c

/-- Initial configuration: empty document, lock free, both tasks at their
membership check. -/
def cinit : CConfig :=
  ⟨[], none, [], 0, 0⟩

/-!
General interleaving model: `n` host tasks run `add_subscription`, task `i`
on id `uids i`, with the same atomic actions and program counters as the
two-task model above. Schedules are arbitrary finite sequences of task
choices; a blocked or finished task leaves the state unchanged when
scheduled.
-/

/-- A configuration of the `n`-task interleaving model. `file` is the
subscriptions array of the last completed file write. -/
structure NConfig (n : Nat) where
  subs : List String
  lockHeld : Option (Fin n)
  file : List String
  pcs : Fin n → Nat

/-- Set task `i`'s program counter. -/
def setPcN {n : Nat} (c : NConfig n) (i : Fin n) (p : Nat) : NConfig n :=
  { c with pcs := fun j => if j = i then p else c.pcs j }

/-- One atomic action of task `i` (check, append, acquire, write, release). -/
def nstep {n : Nat} (uids : Fin n → String) (c : NConfig n) (i : Fin n) : NConfig n :=
  match c.pcs i with
  | 0 => if uids i ∈ c.subs then setPcN c i 5 else setPcN c i 1
  | 1 => setPcN { c with subs := c.subs ++ [uids i] } i 2
  | 2 => match c.lockHeld with
         | none => setPcN { c with lockHeld := some i } i 3
         | some _ => c
  | 3 => setPcN { c with file := c.subs } i 4
  | 4 => setPcN { c with lockHeld := none } i 5
  | _ => c

/-- Run a schedule (a sequence of task choices) of any length. -/
def nrun {n : Nat} (uids : Fin n → String) (c : NConfig n) (sched : List (Fin n)) :
    NConfig n :=
  sched.foldl (nstep uids) c

/-- Initial configuration: empty document, lock free, every task at its
membership check. -/
def ninit (n : Nat) : NConfig n :=
  ⟨[], none, [], fun _ => 0⟩

/-- The inductive invariant of the `n`-task run: (A) an id occurs in the
subscription list exactly once as soon as its task has passed its append and
never before; (B) the list holds nothing but the tasks' ids; (C) whenever no
task sits between its append and its file write, the last written file is
exactly the current list. -/
def NInv {n : Nat} (uids : Fin n → String) (c : NConfig n) : Prop :=
  (∀ i, c.subs.count (uids i) = if 2 ≤ c.pcs i then 1 else 0)
  ∧ (∀ x ∈ c.subs, ∃ i, uids i = x)
  ∧ ((∀ j, c.pcs j ≠ 2 ∧ c.pcs j ≠ 3) → c.file = c.subs)

/-- Two distinct concrete ids for the witness instance. -/
def uids2 : Fin 2 → String := fun i => if i.val = 0 then "1001" else "1002"

/-- A concrete completing schedule for two tasks. -/
def sched2 : List (Fin 2) := [0, 0, 0, 0, 0, 1, 1, 1, 1, 1]

/-- Document already holding the new version to be written. -/
def c1NewDoc : BossDoc := ⟨["1001"], []⟩

/-- Store state just before the write: the file still holds the serialization
of the previous (empty) document. -/
def c1State : StoreState := ⟨c1NewDoc, some (dumpString ⟨[], []⟩), []⟩

/-- A concrete clock value for concrete evaluations. -/
def nowCex : PyDateTime := ⟨2026, 10, 12, 9, 30⟩

/-- A fresh store over an empty document, file not yet written. -/
def emptyStore : StoreState := ⟨⟨[], []⟩, none, []⟩

/-!  Helper lemmas shared by several claims. -/

theorem saveData_doc (s : StoreState) (fa : Option Nat) :
    (save_data s fa).doc = s.doc := by
  cases fa <;> rfl

theorem saveData_file_ok (s : StoreState) :
    (save_data s none).file = some (dumpString s.doc) := rfl

theorem saveData_log_ok (s : StoreState) :
    (save_data s none).log = s.log := rfl

theorem saveData_file_fail (s : StoreState) (k : Nat) :
    (save_data s (some k)).file = some (String.mk ((dumpString s.doc).data.take k)) := rfl

theorem saveData_log_fail (s : StoreState) (k : Nat) :
    (save_data s (some k)).log = s.log ++ ["保存数据失败"] := rfl

theorem NInv_init (n : Nat) (uids : Fin n → String) : NInv uids (ninit n) := by
  refine ⟨fun i => by simp [ninit], fun x hx => by simp [ninit] at hx, fun _ => rfl⟩

theorem NInv_step {n : Nat} {uids : Fin n → String} (hinj : Function.Injective uids)
    (c : NConfig n) (i : Fin n) (h : NInv uids c) : NInv uids (nstep uids c i) := by
  obtain ⟨hA, hB, hE⟩ := h
  unfold nstep
  split
  next hpc =>
    -- pcs i = 0: the membership check; by invariant A the id is absent.
    have hni : uids i ∉ c.subs := by
      have hc := hA i
      rw [hpc] at hc
      simp at hc
      exact List.count_eq_zero.mp hc
    rw [if_neg hni]
    refine ⟨?_, hB, ?_⟩
    · intro j
      rcases eq_or_ne j i with rfl | hj
      · simp [setPcN, List.count_eq_zero.mpr hni]
      · simpa [setPcN, hj] using hA j
    · intro hdone
      apply hE
      intro j
      rcases eq_or_ne j i with rfl | hj
      · rw [hpc]; omega
      · simpa [setPcN, hj] using hdone j
  next hpc =>
    -- pcs i = 1: the append.
    have h0 : c.subs.count (uids i) = 0 := by
      have hc := hA i; rw [hpc] at hc; simpa using hc
    refine ⟨?_, ?_, ?_⟩
    · intro j
      rcases eq_or_ne j i with rfl | hj
      · simp [setPcN, List.count_append, h0]
      · have hne : uids j ≠ uids i := fun he => hj (hinj he)
        have hz : List.count (uids j) [uids i] = 0 :=
          List.count_eq_zero.mpr (by simp [hne])
        simpa [setPcN, hj, List.count_append, hz] using hA j
    · intro x hx
      simp only [setPcN] at hx
      rcases List.mem_append.mp hx with hx | hx
      · exact hB x hx
      · have hxi : x = uids i := by simpa using hx
        exact ⟨i, hxi.symm⟩
    · intro hdone
      exact absurd (by simp [setPcN] : (setPcN { c with
        subs := c.subs ++ [uids i] } i 2).pcs i = 2) (hdone i).1
  next hpc =>
    -- pcs i = 2: the lock acquisition (or a blocked stutter).
    split
    next hlock =>
      refine ⟨?_, hB, ?_⟩
      · intro j
        rcases eq_or_ne j i with rfl | hj
        · have hc := hA j; rw [hpc] at hc; simpa [setPcN] using hc
        · simpa [setPcN, hj] using hA j
      · intro hdone
        exact absurd (by simp [setPcN] : (setPcN { c with
          lockHeld := some i } i 3).pcs i = 3) (hdone i).2
    next =>
      exact ⟨hA, hB, hE⟩
  next hpc =>
    -- pcs i = 3: the file write snapshots the current list.
    refine ⟨?_, hB, ?_⟩
    · intro j
      rcases eq_or_ne j i with rfl | hj
      · have hc := hA j; rw [hpc] at hc; simpa [setPcN] using hc
      · simpa [setPcN, hj] using hA j
    · intro _
      rfl
  next hpc =>
    -- pcs i = 4: the lock release.
    refine ⟨?_, hB, ?_⟩
    · intro j
      rcases eq_or_ne j i with rfl | hj
      · have hc := hA j; rw [hpc] at hc; simpa [setPcN] using hc
      · simpa [setPcN, hj] using hA j
    · intro hdone
      apply hE
      intro j
      rcases eq_or_ne j i with rfl | hj
      · rw [hpc]; omega
      · simpa [setPcN, hj] using hdone j
  next =>
    exact ⟨hA, hB, hE⟩

theorem NInv_run {n : Nat} {uids : Fin n → String} (hinj : Function.Injective uids) :
    ∀ (sched : List (Fin n)) (c : NConfig n),
    NInv uids c → NInv uids (nrun uids c sched) := by
  intro sched
  induction sched with
  | nil => intro c h; exact h
  | cons i t ih => intro c h; exact ih (nstep uids c i) (NInv_step hinj c i h)

/-!  Claim C1. -/

/-- Claim C1 is false on the code: `save_data` overwrites the file in place
(`open(path, "w")` truncates, then `json.dump` writes), so a write that
fails immediately after the truncation leaves the file empty — neither the
old version (the serialized empty document) nor the new version (the
serialization of the current in-memory document). -/
theorem C1_counterexample :
    (save_data c1State (some 0)).file = some ""
    ∧ c1State.file ≠ some ""
    ∧ dumpString c1State.doc ≠ "" := by
  decide

/-- Claim C1 amended: a write that completes leaves the file fully the new
version, and a failed write is logged rather than raised — but it may leave
the file a partial (possibly empty) prefix of the new serialization, since
the file is overwritten in place. -/
theorem C1_write_atomicity :
    ∀ (s : StoreState) (k : Nat),
    (save_data s none).file = some (dumpString s.doc)
    ∧ (∃ p rest, (save_data s (some k)).file = some p
         ∧ p.data ++ rest = (dumpString s.doc).data)
    ∧ (save_data s (some k)).log = s.log ++ ["保存数据失败"] := by
  intro s k
  refine ⟨saveData_file_ok s, ⟨String.mk ((dumpString s.doc).data.take k),
    (dumpString s.doc).data.drop k, saveData_file_fail s k, ?_⟩, saveData_log_fail s k⟩
  exact List.take_append_drop k (dumpString s.doc).data

/-!  Claim C2. -/

/-- Claim C2 is false on the code: in `add_subscription` the membership check
and the list append — the read-modify-write of the in-memory map — run
before `save_data` is ever entered, so they run without the lock.  In the
interleaving model: after task 0's first two actions the subscription list
has already been mutated (`["1001"]` appended) while `BossData.LOCK` has
never been held (it is `none` initially, after the check, and after the
append; it is first acquired only at the later file-write step). -/
theorem C2_counterexample :
    cinit.lockHeld = none
    ∧ (crun cinit [false]).lockHeld = none
    ∧ (crun cinit [false]).pc0 = 1
    ∧ (crun cinit [false, false]).subs = ["1001"]
    ∧ (crun cinit [false, false]).lockHeld = none
    ∧ (crun cinit [false, false]).pc0 = 2 := by
  decide

/-- Claim C2 amended: the global lock is held only around the file write, not
around the in-memory read-modify-write; nevertheless, for any `N` concurrent
`AddSubscriber` calls with distinct ids, every interleaving (schedules of
arbitrary length) that completes all `N` calls leaves the subscriber list a
permutation of the `N` ids — exactly `N` members, duplicate-free, every id
present, none lost — and the last file write contains exactly that list. -/
theorem C2_distinct_ids_persist :
    ∀ (n : Nat) (uids : Fin n → String), Function.Injective uids →
    ∀ sched : List (Fin n),
    (∀ i, (nrun uids (ninit n) sched).pcs i = 5) →
    (nrun uids (ninit n) sched).subs.Perm (List.ofFn uids)
    ∧ (nrun uids (ninit n) sched).subs.length = n
    ∧ (nrun uids (ninit n) sched).subs.Nodup
    ∧ (∀ i, uids i ∈ (nrun uids (ninit n) sched).subs)
    ∧ (nrun uids (ninit n) sched).file = (nrun uids (ninit n) sched).subs := by
  intro n uids hinj sched hdone
  obtain ⟨hA, hB, hE⟩ := NInv_run hinj sched (ninit n) (NInv_init n uids)
  have hcount : ∀ i, (nrun uids (ninit n) sched).subs.count (uids i) = 1 := by
    intro i
    have hc := hA i
    rw [hdone i] at hc
    simpa using hc
  have hofn : (List.ofFn uids).Nodup := List.nodup_ofFn.mpr hinj
  have hperm : (nrun uids (ninit n) sched).subs.Perm (List.ofFn uids) := by
    rw [List.perm_iff_count]
    intro a
    by_cases ha : ∃ i, uids i = a
    · obtain ⟨i, rfl⟩ := ha
      rw [hcount i]
      exact (List.count_eq_one_of_mem hofn
        ((List.mem_ofFn uids (uids i)).mpr ⟨i, rfl⟩)).symm
    · rw [List.count_eq_zero.mpr, List.count_eq_zero.mpr]
      · intro hmem
        exact ha (Set.mem_range.mp ((List.mem_ofFn uids a).mp hmem))
      · intro hmem
        exact ha (hB a hmem)
  refine ⟨hperm, by rw [hperm.length_eq, List.length_ofFn], hperm.symm.nodup hofn,
    ?_, hE (fun j => by rw [hdone j]; omega)⟩
  intro i
  have hc := hcount i
  exact List.count_pos_iff.mp (by rw [hc]; omega)

/-- Witness for C2: two tasks with the distinct ids `"1001"`, `"1002"` and a
concrete completing schedule. -/
theorem C2_distinct_ids_persist_witness :
    (nrun uids2 (ninit 2) sched2).subs.length = 2
    ∧ (∀ i, uids2 i ∈ (nrun uids2 (ninit 2) sched2).subs)
    ∧ (nrun uids2 (ninit 2) sched2).file = (nrun uids2 (ninit 2) sched2).subs := by
  have h := C2_distinct_ids_persist 2 uids2 (by decide) sched2 (by decide)
  exact ⟨h.2.1, h.2.2.2.1, h.2.2.2.2⟩

/-!  Claims C3, C8, C9: the store operations. -/

theorem mem_add_self (s : StoreState) (uid : String) (fa : Option Nat) :
    uid ∈ (add_subscription s uid fa).1.doc.subscriptions := by
  by_cases hm : uid ∈ s.doc.subscriptions
  · simp [add_subscription, hm]
  · simp [add_subscription, hm, saveData_doc]

/-- Claim C3 (confirmed): for every mutating operation and any injected
persistence failure, the raised-exception flag is `false` (nothing propagates
to the caller), the in-memory document contains the mutation — the id is
present after `add_subscription`, absent after `remove_subscription` (on a
duplicate-free list), and the record is wholesale-replaced after
`update_boss` — and a failing write appends the failure message to the log. -/
theorem C3_ops_total :
    ∀ (s : StoreState) (uid p n i na f : String) (ts : Option String)
      (now : PyDateTime) (fa : Option Nat),
    s.doc.subscriptions.Nodup →
    (add_subscription s uid fa).2 = false
    ∧ uid ∈ (add_subscription s uid fa).1.doc.subscriptions
    ∧ (remove_subscription s uid fa).2 = false
    ∧ uid ∉ (remove_subscription s uid fa).1.doc.subscriptions
    ∧ (update_boss s p n i na f ts now fa).2 = false
    ∧ (update_boss s p n i na f ts now fa).1.doc.boss =
        [("place", p), ("name", n), ("iv", i), ("nature", na), ("feature", f),
         ("time", timeOf ts now)]
    ∧ (fa.isSome = true →
        (update_boss s p n i na f ts now fa).1.log = s.log ++ ["保存数据失败"])
    ∧ (fa.isSome = true → uid ∉ s.doc.subscriptions →
        (add_subscription s uid fa).1.log = s.log ++ ["保存数据失败"])
    ∧ (fa.isSome = true → uid ∈ s.doc.subscriptions →
        (remove_subscription s uid fa).1.log = s.log ++ ["保存数据失败"]) := by
  intro s uid p n i na f ts now fa hnd
  refine ⟨?_, mem_add_self s uid fa, ?_, ?_, rfl, ?_, ?_, ?_, ?_⟩
  · unfold add_subscription; split <;> rfl
  · unfold remove_subscription; split <;> rfl
  · by_cases hm : uid ∈ s.doc.subscriptions
    · simp only [remove_subscription, hm, if_pos, saveData_doc]
      exact List.Nodup.not_mem_erase hnd
    · simp [remove_subscription, hm]
  · simp [update_boss, saveData_doc]
  · intro hfa
    match fa, hfa with
    | some k, _ => simp [update_boss, saveData_log_fail]
  · intro hfa hm
    match fa, hfa with
    | some k, _ => simp [add_subscription, hm, saveData_log_fail]
  · intro hfa hm
    match fa, hfa with
    | some k, _ => simp [remove_subscription, hm, saveData_log_fail]

/-- Witness for C3 with a write that fails immediately: an add on a fresh
store and a remove on a store holding the id both do not raise, mutate the
in-memory document, and log the failure. -/
theorem C3_ops_total_witness :
    (add_subscription emptyStore "1001" (some 0)).2 = false
    ∧ "1001" ∈ (add_subscription emptyStore "1001" (some 0)).1.doc.subscriptions
    ∧ (add_subscription emptyStore "1001" (some 0)).1.log = ["保存数据失败"]
    ∧ (remove_subscription c1State "1001" (some 0)).2 = false
    ∧ "1001" ∉ (remove_subscription c1State "1001" (some 0)).1.doc.subscriptions
    ∧ (remove_subscription c1State "1001" (some 0)).1.log = ["保存数据失败"] := by
  have h := C3_ops_total emptyStore "1001" "p" "n" "i" "na" "f" none nowCex (some 0)
    (by decide)
  have h2 := C3_ops_total c1State "1001" "p" "n" "i" "na" "f" none nowCex (some 0)
    (by decide)
  exact ⟨h.1, h.2.1, h.2.2.2.2.2.2.2.1 rfl (by decide),
    h2.2.2.1, h2.2.2.2.1, h2.2.2.2.2.2.2.2.2 rfl (by decide)⟩

/-- Claim C8 (confirmed): `add_subscription` twice with the same id is the
very same state as once (second call is a no-op, whatever the two calls'
write outcomes), one call on a duplicate-free list yields membership count
exactly 1, and `remove_subscription` of an absent id returns the state
unchanged. -/
theorem C8_idempotence :
    ∀ (s : StoreState) (x : String) (fa1 fa2 : Option Nat),
    add_subscription (add_subscription s x fa1).1 x fa2 = add_subscription s x fa1
    ∧ x ∈ (add_subscription s x fa1).1.doc.subscriptions
    ∧ (s.doc.subscriptions.Nodup →
        (add_subscription s x fa1).1.doc.subscriptions.count x = 1)
    ∧ (x ∉ s.doc.subscriptions → remove_subscription s x fa2 = (s, false)) := by
  intro s x fa1 fa2
  refine ⟨?_, mem_add_self s x fa1, ?_, ?_⟩
  · by_cases hm : x ∈ s.doc.subscriptions
    · simp [add_subscription, hm]
    · simp [add_subscription, hm, saveData_doc]
  · intro hnd
    by_cases hm : x ∈ s.doc.subscriptions
    · simp only [add_subscription, hm, if_pos]
      exact List.count_eq_one_of_mem hnd hm
    · simp [add_subscription, hm, saveData_doc, List.count_append,
        List.count_eq_zero_of_not_mem hm]
  · intro hm
    simp [remove_subscription, hm]

/-- Witness for C8 at a fresh store and id `"1001"`. -/
theorem C8_idempotence_witness :
    add_subscription (add_subscription emptyStore "1001" none).1 "1001" none
      = add_subscription emptyStore "1001" none
    ∧ (add_subscription emptyStore "1001" none).1.doc.subscriptions.count "1001" = 1
    ∧ remove_subscription emptyStore "1001" none = (emptyStore, false) := by
  have h := C8_idempotence emptyStore "1001" none none
  exact ⟨h.1, h.2.2.1 (by decide), h.2.2.2 (by decide)⟩

/-- Claim C9 (confirmed): starting from a duplicate-free subscriber list,
every operation preserves duplicate-freedom; the `订阅列表` view returns the
stored list itself, `add_subscription` appends a new id at the end (keeping
insertion order), `remove_subscription` keeps the survivors in their
original relative order (its result is a sublist), and `update_boss` leaves
membership untouched. -/
theorem C9_nodup_and_order :
    ∀ (s : StoreState) (x p n i na f : String) (ts : Option String)
      (now : PyDateTime) (fa : Option Nat),
    s.doc.subscriptions.Nodup →
    (add_subscription s x fa).1.doc.subscriptions.Nodup
    ∧ (remove_subscription s x fa).1.doc.subscriptions.Nodup
    ∧ (update_boss s p n i na f ts now fa).1.doc.subscriptions.Nodup
    ∧ list_subscribers s = s.doc.subscriptions
    ∧ (x ∉ s.doc.subscriptions →
        list_subscribers (add_subscription s x fa).1 = s.doc.subscriptions ++ [x])
    ∧ (x ∈ s.doc.subscriptions →
        list_subscribers (add_subscription s x fa).1 = s.doc.subscriptions)
    ∧ (remove_subscription s x fa).1.doc.subscriptions.Sublist s.doc.subscriptions
    ∧ (update_boss s p n i na f ts now fa).1.doc.subscriptions
        = s.doc.subscriptions := by
  intro s x p n i na f ts now fa hnd
  refine ⟨?_, ?_, ?_, rfl, ?_, ?_, ?_, ?_⟩
  · by_cases hm : x ∈ s.doc.subscriptions
    · simpa [add_subscription, hm] using hnd
    · simp [add_subscription, hm, saveData_doc, List.nodup_append, hnd]
  · by_cases hm : x ∈ s.doc.subscriptions
    · simp only [remove_subscription, hm, if_pos, saveData_doc]
      exact List.Nodup.erase x hnd
    · simpa [remove_subscription, hm] using hnd
  · simpa [update_boss, saveData_doc] using hnd
  · intro hm; simp [list_subscribers, add_subscription, hm, saveData_doc]
  · intro hm; simp [list_subscribers, add_subscription, hm]
  · by_cases hm : x ∈ s.doc.subscriptions
    · simp only [remove_subscription, hm, if_pos, saveData_doc]
      exact List.erase_sublist x s.doc.subscriptions
    · simp [remove_subscription, hm]
  · simp [update_boss, saveData_doc]

/-- Witness for C9 at a fresh store: the result is duplicate-free and listed
in insertion order. -/
theorem C9_nodup_and_order_witness :
    (add_subscription emptyStore "1001" none).1.doc.subscriptions.Nodup
    ∧ list_subscribers (add_subscription emptyStore "1001" none).1 = ["1001"] := by
  have h := C9_nodup_and_order emptyStore "1001" "p" "n" "i" "na" "f" none nowCex none
    (by decide)
  exact ⟨h.1, h.2.2.2.2.1 (by decide)⟩

/-!  Claim C4: serialize-then-parse round trip. -/

theorem asStrList_map (l : List String) : asStrList (l.map Json.str) = some l := by
  induction l with
  | nil => rfl
  | cons h t ih => simp [asStrList, ih]

theorem asStrPairs_map (b : List (String × String)) :
    asStrPairs (b.map (fun kv => (kv.1, Json.str kv.2))) = some b := by
  induction b with
  | nil => rfl
  | cons kv t ih => simp [asStrPairs, ih]

/-- Claim C4 (confirmed): for every in-memory document, serializing it (as
`save_data` hands it to `json.dump`) and reading the value back (as
`load_data` receives it from `json.load`) recovers an identical subscriber
list and record. -/
theorem C4_roundtrip : ∀ d : BossDoc, parseDocJson (dumpDocJson d) = some d := by
  intro d
  simp [parseDocJson, dumpDocJson, jLookup, asStrList_map, asStrPairs_map]

/-!  Claim C5: load fallback. -/

/-- Claim C5 (confirmed): when the backing file is absent, or unreadable, or
not valid JSON, construction yields the empty document — empty subscriber
set and no record — and the raised-exception flag is `false` for every
possible file state (the constructor surfaces no error). -/
theorem C5_load_fallback :
    bossDataInit .absent = (emptyDocJson, false)
    ∧ bossDataInit .unreadableOrInvalid = (emptyDocJson, false)
    ∧ parseDocJson emptyDocJson = some ⟨[], []⟩
    ∧ ∀ fr : FileRead, (bossDataInit fr).2 = false :=
  ⟨rfl, rfl, rfl, fun _ => rfl⟩

/-!  Claim C6: the notification template. -/

/-- Claim C6 (confirmed): `format_boss_md` coincides with the renderer
written from the spec's words — the fixed "no record" sentence when the
record is absent, otherwise the title line followed by the six labeled lines
in the fixed order time, place, name, individual-values, nature, feature,
where a missing sub-field renders as the empty string (`get` with default)
and its line is never omitted. -/
theorem C6_render : ∀ d : BossDoc, format_boss_md d = renderNotificationSpec d := by
  intro d
  by_cases h : d.boss = []
  · simp [format_boss_md, renderNotificationSpec, h]
  · simp only [format_boss_md, renderNotificationSpec, specLine, h, if_neg]
    rw [show ("- " ++ "时间" ++ "：" : String) = "- 时间：" from by decide]
    rw [show ("- " ++ "地点" ++ "：" : String) = "- 地点：" from by decide]
    rw [show ("- " ++ "精灵" ++ "：" : String) = "- 精灵：" from by decide]
    rw [show ("- " ++ "个体" ++ "：" : String) = "- 个体：" from by decide]
    rw [show ("- " ++ "性格" ++ "：" : String) = "- 性格：" from by decide]
    rw [show ("- " ++ "特性" ++ "：" : String) = "- 特性：" from by decide]
    simp only [String.append_assoc]

/-!  Claims C7 and C10: the stored time. -/

theorem digitChar_isDigit (m : Nat) (h : m < 10) : (Nat.digitChar m).isDigit = true := by
  interval_cases m <;> rfl

theorem digitChar_mod10 (k : Nat) : (Nat.digitChar (k % 10)).isDigit = true :=
  digitChar_isDigit _ (Nat.mod_lt _ (by decide))

theorem strftime_pattern (t : PyDateTime) : matchesTimePattern (strftimeBoss t) = true := by
  simp [matchesTimePattern, strftimeBoss, timePatternChars, pad4chars, pad2chars,
    digitChar_mod10]

/-- Claim C7 is false at the empty-string edge: a `SetRecord` call that
supplies the time argument as `""` does not store it as given — Python's
`if not time_str` also fires on the empty string, so the stored time is the
clock stamp `"2026/10/12-09:30"`, not `""`. -/
theorem C7_counterexample :
    bossGet (update_boss emptyStore "p" "n" "i" "na" "f" (some "") nowCex
        none).1.doc.boss "time" = "2026/10/12-09:30"
    ∧ ("2026/10/12-09:30" : String) ≠ "" := by
  decide

/-- Claim C7 amended: when the time argument is omitted the stored record is
stamped with the current local time in `YYYY/MM/DD-HH:MM` shape; a supplied
*non-empty* time is stored as given; in both cases the record is replaced
wholesale by the six-field record. -/
theorem C7_set_record :
    ∀ (s : StoreState) (p n i na f ts : String) (now : PyDateTime) (fa : Option Nat),
    (update_boss s p n i na f none now fa).1.doc.boss
      = [("place", p), ("name", n), ("iv", i), ("nature", na), ("feature", f),
         ("time", strftimeBoss now)]
    ∧ matchesTimePattern (strftimeBoss now) = true
    ∧ (ts ≠ "" → (update_boss s p n i na f (some ts) now fa).1.doc.boss
        = [("place", p), ("name", n), ("iv", i), ("nature", na), ("feature", f),
           ("time", ts)]) := by
  intro s p n i na f ts now fa
  refine ⟨?_, strftime_pattern now, ?_⟩
  · simp [update_boss, saveData_doc, timeOf]
  · intro h
    simp [update_boss, saveData_doc, timeOf, h]

/-- Witness for C7: a concrete non-empty supplied time is stored verbatim. -/
theorem C7_set_record_witness :
    (update_boss emptyStore "p" "n" "i" "na" "f" (some "2025/08/29-10:00") nowCex
        none).1.doc.boss
      = [("place", "p"), ("name", "n"), ("iv", "i"), ("nature", "na"),
         ("feature", "f"), ("time", "2025/08/29-10:00")] :=
  (C7_set_record emptyStore "p" "n" "i" "na" "f" "2025/08/29-10:00" nowCex none).2.2
    (by decide)

/-- Claim C10 (confirmed): supplying the time argument as the empty string
behaves exactly like omitting it — the stored record's time field is the
current-local-time stamp, which matches the `YYYY/MM/DD-HH:MM` shape, and
the empty string is not stored verbatim. -/
theorem C10_empty_time_stamped :
    ∀ (s : StoreState) (p n i na f : String) (now : PyDateTime) (fa : Option Nat),
    bossGet (update_boss s p n i na f (some "") now fa).1.doc.boss "time"
      = strftimeBoss now
    ∧ matchesTimePattern (strftimeBoss now) = true := by
  intro s p n i na f now fa
  refine ⟨?_, strftime_pattern now⟩
  simp [update_boss, saveData_doc, timeOf, bossGet, List.find?]
